import Mathlib

/-!
# Verification of the bulk image editing backend

Shallow embedding of `src/backend/app.py` (Flask backend of the bulk
editing tool).  Pixels are modelled over `ℚ` (Pillow's uint8 arithmetic
with its rounding is abstracted to exact rational arithmetic with
clamping); library primitives that are not code of this repository
(`PIL.Image.open` + `ImageOps.exif_transpose` = `decode`, `img.save`'s
byte encoder = `encode`, `np.std` = `std`, the HSV saturation plane of
`img.convert('HSV')` = `saturationValues`) are taken as parameters of the
embedded endpoints.  Everything written in `app.py` itself — the edit
orchestration, the storage-resolution rule, the derived-name generator,
the classifier thresholds and the error branches — is embedded directly.
-/

/-- A JSON value that can appear as an edit parameter in the request body
(`data.get('edits', {})`): a number, a boolean, or a string. -/
inductive EditVal where
  | num (q : ℚ)
  | bool (b : Bool)
  | str (s : String)
deriving DecidableEq

/-- Python `float(v)` / use of `v` as an enhancement factor
(`enhancer.enhance(edits['brightness'])`): numbers pass through, booleans
coerce to 1/0 (Python `bool` is an `int`), a string raises `TypeError`
(modelled as `none`). -/
def EditVal.asFactor : EditVal → Option ℚ
  | num q => some q
  | bool b => some (if b then 1 else 0)
  | str _ => none

/-- Python `v > 0` as used in `edits['grayscale'] > 0`: for a number the
numeric comparison, for a boolean the comparison of its integer value
(`True > 0` is `True`), for a string a `TypeError` (modelled as `none`). -/
def EditVal.pyGtZero : EditVal → Option Bool
  | num q => some (decide (0 < q))
  | bool b => some b
  | str _ => none

/-- Python truthiness of a JSON value (`bool(v)`): nonzero numbers, `True`,
and non-empty strings are truthy. -/
def EditVal.truthy : EditVal → Bool
  | num q => decide (q ≠ 0)
  | bool b => b
  | str s => decide (s ≠ "")

/-- An RGB pixel: three channel intensities (0–255 scale, exact rationals). -/
abbrev Pixel : Type := ℚ × ℚ × ℚ

/-- A decoded Pillow image with its mode: `RGB` (3 channels) or `L`
(single-channel grayscale).  Pixels are kept as a flat list. -/
inductive PImage where
  | rgbImg (px : List Pixel)
  | lImg (px : List ℚ)
deriving DecidableEq

/-- Number of channels of the image's mode. -/
def PImage.channels : PImage → ℕ
  | rgbImg _ => 3
  | lImg _ => 1

/-- Clamp an intensity to the representable range [0, 255]
(Pillow clips on conversion back to `uint8`; no wraparound). -/
def clamp255 (q : ℚ) : ℚ := max 0 (min 255 q)

/-- ITU-R 601-2 luma transform used by Pillow's `convert('L')`:
`L = R * 299/1000 + G * 587/1000 + B * 114/1000` (integer quantisation
abstracted away). -/
def luminance (p : Pixel) : ℚ := (299 * p.1 + 587 * p.2.1 + 114 * p.2.2) / 1000

/-- `img.convert('RGB')`: an L image expands to three equal channels. -/
def PImage.convert_RGB : PImage → PImage
  | .rgbImg px => .rgbImg px
  | .lImg ls => .rgbImg (ls.map fun l => (l, l, l))

/-- `img.convert('L')`: an RGB image collapses to per-pixel luminance. -/
def PImage.convert_L : PImage → PImage
  | .rgbImg px => .lImg (px.map luminance)
  | .lImg ls => .lImg ls

/-- The single-channel grayscale rendering of an image, as a list of
intensities (`np.array(img.convert('L'))`, flattened). -/
def PImage.grayValues : PImage → List ℚ
  | .rgbImg px => px.map luminance
  | .lImg ls => ls

/-- Arithmetic mean of a list of rationals (`np.mean`). -/
def listMean (xs : List ℚ) : ℚ := xs.sum / xs.length

/-- `ImageEnhance.Brightness(img).enhance(f)`: blend of the image with a
black image, i.e. every channel is multiplied by `f` and clamped. -/
def enhanceBrightness (f : ℚ) : PImage → PImage
  | .rgbImg px =>
      .rgbImg (px.map fun p => (clamp255 (f * p.1), clamp255 (f * p.2.1), clamp255 (f * p.2.2)))
  | .lImg ls => .lImg (ls.map fun l => clamp255 (f * l))

/-- The gray level of `ImageEnhance.Contrast`'s degenerate image:
`int(ImageStat.Stat(image.convert('L')).mean[0] + 0.5)`. -/
def contrastMean (img : PImage) : ℚ := (⌊listMean img.grayValues + 1/2⌋ : ℤ)

/-- `ImageEnhance.Contrast(img).enhance(f)`: blend of the image with the
uniform mean-gray image: each channel becomes `m + f * (c - m)`, clamped. -/
def enhanceContrast (f : ℚ) (img : PImage) : PImage :=
  let m := contrastMean img
  match img with
  | .rgbImg px =>
      .rgbImg (px.map fun p =>
        (clamp255 (m + f * (p.1 - m)), clamp255 (m + f * (p.2.1 - m)),
         clamp255 (m + f * (p.2.2 - m))))
  | .lImg ls => .lImg (ls.map fun l => clamp255 (m + f * (l - m)))

/-- An edit request as received from JSON: an association of edit names to
values.  A Python `dict` has unique keys; lookup is by key. -/
abbrev EditRequest : Type := List (String × EditVal)

/-- `edits[key]` / `key in edits`: the value bound to `key`, if present. -/
def lookupEdit (edits : EditRequest) (key : String) : Option EditVal :=
  (edits.find? (fun e => e.1 == key)).map (·.2)

/-- The edit names the pipeline recognises (`apply_all_edits` lines 96–104). -/
def recognizedEditKeys : List String := ["brightness", "contrast", "grayscale"]

/-- Lines 96–98: `if 'brightness' in edits:` apply the brightness
enhancement with the given factor; a non-numeric factor raises. -/
def brightnessStep (edits : EditRequest) (img : PImage) : Except String PImage :=
  match lookupEdit edits "brightness" with
  | none => .ok img
  | some v =>
    match v.asFactor with
    | none => .error "TypeError: brightness factor"
    | some f => .ok (enhanceBrightness f img)

/-- Lines 100–102: `if 'contrast' in edits:` apply the contrast
enhancement with the given factor; a non-numeric factor raises. -/
def contrastStep (edits : EditRequest) (img : PImage) : Except String PImage :=
  match lookupEdit edits "contrast" with
  | none => .ok img
  | some v =>
    match v.asFactor with
    | none => .error "TypeError: contrast factor"
    | some f => .ok (enhanceContrast f img)

/-- Lines 104–105: `if 'grayscale' in edits and edits['grayscale'] > 0:`
convert to grayscale and back to RGB; comparing a string with `0` raises. -/
def grayscaleStep (edits : EditRequest) (img : PImage) : Except String PImage :=
  match lookupEdit edits "grayscale" with
  | none => .ok img
  | some v =>
    match v.pyGtZero with
    | none => .error "TypeError: grayscale comparison"
    | some b => .ok (if b then img.convert_L.convert_RGB else img)

/-- Lines 94–105 of `apply_all_edits`: unconditional `convert('RGB')`,
then brightness, contrast, grayscale in that fixed order. -/
def applyEdits (edits : EditRequest) (img0 : PImage) : Except String PImage :=
  (brightnessStep edits img0.convert_RGB).bind fun i1 =>
  (contrastStep edits i1).bind fun i2 =>
  grayscaleStep edits i2

/-- Raw file content. -/
abbrev Bytes : Type := List ℕ

/-- The two storage pools: `EDITED_FOLDER` (derived artifacts) and
`UPLOAD_FOLDER` (originals), each a listing of filename/content pairs.
Writing a file prepends; lookup takes the first (most recent) match, so a
re-used name shadows — i.e. overwrites — the older content. -/
structure Store where
  edited : List (String × Bytes)
  uploads : List (String × Bytes)
deriving DecidableEq

/-- `os.path.exists` + read for one folder's listing: content of the first
entry named `filename`, if any. -/
def lookupPool (pool : List (String × Bytes)) (filename : String) : Option Bytes :=
  (pool.find? (fun e => e.1 == filename)).map (·.2)

/-- `get_image_path` (lines 62–68): check the edited folder, then the
uploads folder; first match wins. -/
def getImagePath (store : Store) (filename : String) : Option Bytes :=
  match lookupPool store.edited filename with
  | some b => some b
  | none => lookupPool store.uploads filename

/-- Index of the last occurrence of `c` in `l`, or `-1` (Python `str.rfind`). -/
def rfindChar (l : List Char) (c : Char) : Int :=
  match l.reverse.findIdx? (· == c) with
  | none => -1
  | some j => ((l.length - 1 - j : ℕ) : Int)

/-- `os.path.splitext` (posix `genericpath._splitext` with `sep='/'`):
split at the last dot, unless every character between the last path
separator and that dot is itself a dot (leading-dot names keep no
extension). -/
def splitext (p : String) : String × String :=
  let l := p.data
  let sepIndex := rfindChar l '/'
  let dotIndex := rfindChar l '.'
  if sepIndex < dotIndex then
    let nameStart := (sepIndex + 1).toNat
    if (List.range (dotIndex.toNat - nameStart)).any
        (fun k => l.getD (nameStart + k) '.' != '.') then
      (⟨l.take dotIndex.toNat⟩, ⟨l.drop dotIndex.toNat⟩)
    else (p, "")
  else (p, "")

/-- The decimal digit character of `d` (for `d < 10`). -/
def digitChar (d : ℕ) : Char := Char.ofNat (48 + d)

/-- Big-endian decimal digits of `n`, computed with explicit fuel
(`fuel ≥ n` suffices) so that the kernel can evaluate it. -/
def toDecimalAux : ℕ → ℕ → List Char
  | 0, _ => []
  | fuel + 1, n =>
    if n = 0 then [] else toDecimalAux fuel (n / 10) ++ [digitChar (n % 10)]

/-- Decimal rendering of a natural number, as produced by Python's
f-string interpolation of an `int`. -/
def natStr (n : ℕ) : String :=
  if n = 0 then "0" else ⟨toDecimalAux n n⟩

/-- `get_new_edited_filename` (lines 70–76): split off the extension,
strip everything from the first underscore on (the destructive suffix
strip), and rebuild as `{name}_{suffix}_{timestamp}{ext}` where
`timestamp = int(time.time() * 1000)` is passed in by the caller. -/
def getNewEditedFilename (filename suffix : String) (timestamp : ℕ) : String :=
  let ne := splitext filename
  let base : String := ⟨ne.1.data.takeWhile (· != '_')⟩
  base ++ "_" ++ suffix ++ "_" ++ natStr timestamp ++ ne.2

/-- The observable outcome of `POST /api/edit/apply-all`: the 400
"Filename not provided" rejection, the 404 "File not found" rejection, the
generic 500 carrying a stringified exception, or the 200 success carrying
the new derived filename. -/
inductive EditOutcome where
  | filenameNotProvided
  | fileNotFound
  | exn (msg : String)
  | ok (newFilename : String)
deriving DecidableEq

/-- The HTTP status code attached to each outcome. -/
def EditOutcome.status : EditOutcome → ℕ
  | filenameNotProvided => 400
  | fileNotFound => 404
  | exn _ => 500
  | ok _ => 200

/-- The programmatically inspectable kind of an outcome: its constructor
(equivalently its status code), everything a client can branch on without
parsing the stringified error text. -/
def EditOutcome.kind : EditOutcome → ℕ
  | filenameNotProvided => 0
  | fileNotFound => 1
  | exn _ => 2
  | ok _ => 3

/-- Whether the outcome is the 200 success. -/
def EditOutcome.isOk : EditOutcome → Bool
  | ok _ => true
  | _ => false

/-- `apply_all_edits` (lines 78–118), as a state transformer on the store.
`decode` stands for `Image.open` + `ImageOps.exif_transpose` (`none` for
undecodable bytes), `encode` for `img.save`'s serialisation, and
`timestamp` for `int(time.time() * 1000)` observed during the call.
Validation order is that of the code: the falsy-filename check, then
resolution, then (inside the `try`) decode, the three edit stages, and
only then the single write to the edited pool. -/
def applyAllEdits (decode : Bytes → Option PImage) (encode : PImage → Bytes)
    (store : Store) (filename? : Option String) (edits : EditRequest)
    (timestamp : ℕ) : EditOutcome × Store :=
  match filename? with
  | none => (.filenameNotProvided, store)
  | some filename =>
    if filename = "" then (.filenameNotProvided, store)
    else
      match getImagePath store filename with
      | none => (.fileNotFound, store)
      | some bytes =>
        match decode bytes with
        | none => (.exn "cannot identify image file", store)
        | some img0 =>
          match applyEdits edits img0 with
          | .error msg => (.exn msg, store)
          | .ok img =>
            let newFilename := getNewEditedFilename filename "edited" timestamp
            (.ok newFilename,
             { store with edited := (newFilename, encode img) :: store.edited })

/-- Lines 138–144: the brightness classifier over the grayscale mean. -/
def brightnessRecommendation (brightness : ℚ) : String :=
  if brightness < 70 then "Image might be underexposed. Consider increasing brightness."
  else if brightness > 180 then "Image might be overexposed. Consider decreasing brightness."
  else "Brightness seems balanced."

/-- Lines 147–154: the contrast classifier over the grayscale standard
deviation. -/
def contrastRecommendation (contrast : ℚ) : String :=
  if contrast < 30 then "Image might lack contrast. Consider increasing contrast."
  else if contrast > 80 then "Image has good contrast."
  else "Contrast seems balanced."

/-- Lines 160–167: the vibrancy classifier over the saturation standard
deviation. -/
def vibrancyRecommendation (vibrancy : ℚ) : String :=
  if vibrancy < 50 then "Image might lack color vibrancy. Consider increasing saturation."
  else if vibrancy > 100 then "Image has good color vibrancy."
  else "Color vibrancy seems balanced."

/-- Lines 169–172: start from the empty list and append each
recommendation only when, as a Python string, it is truthy (non-empty). -/
def analysisRecommendations (brightness contrast vibrancy : ℚ) : List String :=
  let brightnessRec := brightnessRecommendation brightness
  let contrastRec := contrastRecommendation contrast
  let vibrancyRec := vibrancyRecommendation vibrancy
  let recs : List String := []
  let recs := if brightnessRec ≠ "" then recs ++ [brightnessRec] else recs
  let recs := if contrastRec ≠ "" then recs ++ [contrastRec] else recs
  let recs := if vibrancyRec ≠ "" then recs ++ [vibrancyRec] else recs
  recs

/-- The observable outcome of `GET /api/analyze/<filename>`. -/
inductive AnalyzeOutcome where
  | fileNotFound
  | exn (msg : String)
  | ok (filename : String) (recommendations : List String)
deriving DecidableEq

/-- `analyze_image` (lines 121–177).  The source is looked up as the code
does — `os.path.join(app.config['UPLOAD_FOLDER'], filename)`, i.e. in the
uploads pool only.  `decode` stands for `Image.open` +
`ImageOps.exif_transpose`, `std` for `np.std`, and `saturationValues` for
the flattened saturation plane of `img.convert('HSV')`. -/
def analyzeImage (decode : Bytes → Option PImage) (std : List ℚ → ℚ)
    (saturationValues : PImage → List ℚ) (store : Store) (filename : String) :
    AnalyzeOutcome :=
  match lookupPool store.uploads filename with
  | none => .fileNotFound
  | some bytes =>
    match decode bytes with
    | none => .exn "cannot identify image file"
    | some img =>
      let grayArray := img.convert_L.grayValues
      let brightness := listMean grayArray
      let contrast := std grayArray
      let vibrancy := std (saturationValues img)
      .ok filename (analysisRecommendations brightness contrast vibrancy)

deriving instance DecidableEq for Except

/-- All-channels-equal predicate on an image: every RGB pixel has its
three channels pairwise equal (the observable effect of the grayscale
round-trip). -/
def PImage.allChannelsEqual : PImage → Bool
  | .rgbImg px => px.all fun p => p.1 == p.2.1 && p.2.1 == p.2.2
  | .lImg _ => true

/-- Decimal parse-back of a rendered numeral, used to establish that
`natStr` is injective. -/
def strToNat (s : String) : ℕ :=
  s.data.foldl (fun acc c => 10 * acc + (c.toNat - 48)) 0

/-- A sample decoder for concrete runs: `[9]` is a corrupt file, anything
else decodes to a one-pixel RGB image whose red channel is the first byte. -/
def sampleDecode : Bytes → Option PImage :=
  fun b => if b = [9] then none else some (.rgbImg [(((b.headD 0 : ℕ) : ℚ), 20, 30)])

/-- A sample encoder for concrete runs. -/
def sampleEncode : PImage → Bytes :=
  fun img => [img.channels]

/-- A sample store: empty derived pool; one decodable and one corrupt
original. -/
def sampleStore : Store :=
  { edited := [], uploads := [("good.png", [1]), ("bad.png", [9])] }

/-- A store whose only file lives in the derived pool. -/
def derivedOnlyStore : Store :=
  { edited := [("x.png", [7])], uploads := [] }

/-! ### Auxiliary lemmas -/

lemma digitChar_toNat {d : ℕ} (hd : d < 10) : (digitChar d).toNat = 48 + d := by
  interval_cases d <;> decide

lemma foldl_toDecimalAux (fuel : ℕ) : ∀ n, n ≤ fuel →
    (toDecimalAux fuel n).foldl (fun acc c => 10 * acc + (c.toNat - 48)) 0 = n := by
  induction fuel with
  | zero =>
    intro n hn
    have : n = 0 := Nat.le_zero.mp hn
    subst this
    rfl
  | succ fuel ih =>
    intro n hn
    by_cases h0 : n = 0
    · subst h0; rfl
    · have hdiv : n / 10 ≤ fuel := by
        have := Nat.div_lt_self (Nat.pos_of_ne_zero h0) (by norm_num : 1 < 10)
        omega
      simp only [toDecimalAux, if_neg h0, List.foldl_append, List.foldl_cons, List.foldl_nil]
      rw [ih _ hdiv, digitChar_toNat (Nat.mod_lt _ (by norm_num))]
      omega

lemma strToNat_natStr (n : ℕ) : strToNat (natStr n) = n := by
  unfold natStr
  by_cases h0 : n = 0
  · subst h0; rfl
  · rw [if_neg h0]
    exact foldl_toDecimalAux n n le_rfl

lemma natStr_injective : Function.Injective natStr := fun m n h => by
  rw [← strToNat_natStr m, ← strToNat_natStr n, h]

lemma lookupEdit_eq_of_perm {e1 e2 : EditRequest} (hp : e1.Perm e2)
    (hnd : (e1.map Prod.fst).Nodup) (k : String) :
    lookupEdit e1 k = lookupEdit e2 k := by
  unfold lookupEdit
  suffices h : e1.find? (fun e => e.1 == k) = e2.find? (fun e => e.1 == k) by rw [h]
  cases hf : List.find? (fun e => e.1 == k) e1 with
  | none =>
    rw [List.find?_eq_none] at hf
    symm
    rw [List.find?_eq_none]
    exact fun x hx => hf x (hp.mem_iff.mpr hx)
  | some x =>
    have hx1 : x ∈ e1 := List.mem_of_find?_eq_some hf
    have hpx : x.1 = k := by simpa using List.find?_some hf
    cases hf2 : List.find? (fun e => e.1 == k) e2 with
    | none =>
      rw [List.find?_eq_none] at hf2
      have := hf2 x (hp.mem_iff.mp hx1)
      simp [hpx] at this
    | some y =>
      have hy2 : y ∈ e2 := List.mem_of_find?_eq_some hf2
      have hpy : y.1 = k := by simpa using List.find?_some hf2
      have hxy : x.1 = y.1 := by rw [hpx, hpy]
      rw [List.inj_on_of_nodup_map hnd hx1 (hp.mem_iff.mpr hy2) hxy]

lemma lookupEdit_cons_of_ne {k key : String} (v : EditVal) (e : EditRequest)
    (h : k ≠ key) : lookupEdit ((k, v) :: e) key = lookupEdit e key := by
  unfold lookupEdit
  rw [List.find?_cons_of_neg]
  simp [h]

lemma brightnessStep_congr {e1 e2 : EditRequest}
    (h : lookupEdit e1 "brightness" = lookupEdit e2 "brightness") :
    brightnessStep e1 = brightnessStep e2 := funext fun img => by
  unfold brightnessStep
  rw [h]

lemma contrastStep_congr {e1 e2 : EditRequest}
    (h : lookupEdit e1 "contrast" = lookupEdit e2 "contrast") :
    contrastStep e1 = contrastStep e2 := funext fun img => by
  unfold contrastStep
  rw [h]

lemma grayscaleStep_congr {e1 e2 : EditRequest}
    (h : lookupEdit e1 "grayscale" = lookupEdit e2 "grayscale") :
    grayscaleStep e1 = grayscaleStep e2 := funext fun img => by
  unfold grayscaleStep
  rw [h]

lemma applyEdits_congr {e1 e2 : EditRequest}
    (h : ∀ k ∈ recognizedEditKeys, lookupEdit e1 k = lookupEdit e2 k) :
    applyEdits e1 = applyEdits e2 := by
  have hb := brightnessStep_congr (h "brightness" (by simp [recognizedEditKeys]))
  have hc := contrastStep_congr (h "contrast" (by simp [recognizedEditKeys]))
  have hg := grayscaleStep_congr (h "grayscale" (by simp [recognizedEditKeys]))
  funext img0
  unfold applyEdits
  simp only [hb, hc, hg]

lemma applyAllEdits_congr_edits (decode : Bytes → Option PImage)
    (encode : PImage → Bytes) (store : Store) (filename? : Option String)
    {e1 e2 : EditRequest} (timestamp : ℕ) (h : applyEdits e1 = applyEdits e2) :
    applyAllEdits decode encode store filename? e1 timestamp =
      applyAllEdits decode encode store filename? e2 timestamp := by
  unfold applyAllEdits
  simp only [h]

lemma convert_RGB_channels (i : PImage) : i.convert_RGB.channels = 3 := by
  cases i <;> rfl

lemma enhanceBrightness_channels (f : ℚ) (i : PImage) :
    (enhanceBrightness f i).channels = i.channels := by
  cases i <;> rfl

lemma enhanceContrast_channels (f : ℚ) (i : PImage) :
    (enhanceContrast f i).channels = i.channels := by
  cases i <;> rfl

lemma convert_L_convert_RGB_allEq (i : PImage) :
    i.convert_L.convert_RGB.allChannelsEqual = true := by
  cases i <;>
    simp [PImage.convert_L, PImage.convert_RGB, PImage.allChannelsEqual, List.all_eq_true]

lemma brightnessStep_channels {e : EditRequest} {i i' : PImage}
    (h : brightnessStep e i = .ok i') : i'.channels = i.channels := by
  unfold brightnessStep at h
  cases hl : lookupEdit e "brightness" with
  | none =>
    rw [hl] at h
    simp only [Except.ok.injEq] at h
    rw [← h]
  | some v =>
    rw [hl] at h
    dsimp only [] at h
    cases hv : v.asFactor with
    | none => rw [hv] at h; simp at h
    | some f =>
      rw [hv] at h
      simp only [Except.ok.injEq] at h
      rw [← h]
      exact enhanceBrightness_channels f i

lemma contrastStep_channels {e : EditRequest} {i i' : PImage}
    (h : contrastStep e i = .ok i') : i'.channels = i.channels := by
  unfold contrastStep at h
  cases hl : lookupEdit e "contrast" with
  | none =>
    rw [hl] at h
    simp only [Except.ok.injEq] at h
    rw [← h]
  | some v =>
    rw [hl] at h
    dsimp only [] at h
    cases hv : v.asFactor with
    | none => rw [hv] at h; simp at h
    | some f =>
      rw [hv] at h
      simp only [Except.ok.injEq] at h
      rw [← h]
      exact enhanceContrast_channels f i

lemma grayscaleStep_channels {e : EditRequest} {i i' : PImage}
    (hc : i.channels = 3) (h : grayscaleStep e i = .ok i') : i'.channels = 3 := by
  unfold grayscaleStep at h
  cases hl : lookupEdit e "grayscale" with
  | none =>
    rw [hl] at h
    simp only [Except.ok.injEq] at h
    rw [← h]; exact hc
  | some v =>
    rw [hl] at h
    dsimp only [] at h
    cases hv : v.pyGtZero with
    | none => rw [hv] at h; simp at h
    | some b =>
      rw [hv] at h
      simp only [Except.ok.injEq] at h
      rw [← h]
      cases b with
      | true => rw [if_pos rfl]; exact convert_RGB_channels _
      | false => rw [if_neg Bool.false_ne_true]; exact hc

lemma applyEdits_ok_channels {e : EditRequest} {img0 img : PImage}
    (h : applyEdits e img0 = .ok img) : img.channels = 3 := by
  unfold applyEdits at h
  cases hb : brightnessStep e img0.convert_RGB with
  | error m => rw [hb] at h; simp [Except.bind] at h
  | ok i1 =>
    rw [hb] at h
    simp only [Except.bind] at h
    cases hc : contrastStep e i1 with
    | error m => rw [hc] at h; simp at h
    | ok i2 =>
      rw [hc] at h
      have h1 : i1.channels = 3 := by
        rw [brightnessStep_channels hb]; exact convert_RGB_channels img0
      have h2 : i2.channels = 3 := by rw [contrastStep_channels hc]; exact h1
      exact grayscaleStep_channels h2 h

lemma applyEdits_grayscale_allEq {e : EditRequest} {img0 img : PImage} {v : EditVal}
    (hl : lookupEdit e "grayscale" = some v) (hgt : v.pyGtZero = some true)
    (h : applyEdits e img0 = .ok img) : img.allChannelsEqual = true := by
  unfold applyEdits at h
  cases hb : brightnessStep e img0.convert_RGB with
  | error m => rw [hb] at h; simp [Except.bind] at h
  | ok i1 =>
    rw [hb] at h
    simp only [Except.bind] at h
    cases hc : contrastStep e i1 with
    | error m => rw [hc] at h; simp at h
    | ok i2 =>
      rw [hc] at h
      simp only [Except.bind] at h
      unfold grayscaleStep at h
      rw [hl] at h
      dsimp only [] at h
      rw [hgt] at h
      simp only [if_true, Except.ok.injEq] at h
      rw [← h]
      exact convert_L_convert_RGB_allEq i2

lemma applyEdits_brightness_str {e : EditRequest} {s : String} (img0 : PImage)
    (hl : lookupEdit e "brightness" = some (.str s)) :
    applyEdits e img0 = .error "TypeError: brightness factor" := by
  unfold applyEdits brightnessStep
  rw [hl]
  rfl

lemma contrastStep_str {e : EditRequest} {s : String} (img : PImage)
    (hl : lookupEdit e "contrast" = some (.str s)) :
    contrastStep e img = .error "TypeError: contrast factor" := by
  unfold contrastStep
  rw [hl]
  rfl

lemma grayscaleStep_str {e : EditRequest} {s : String} (img : PImage)
    (hl : lookupEdit e "grayscale" = some (.str s)) :
    grayscaleStep e img = .error "TypeError: grayscale comparison" := by
  unfold grayscaleStep
  rw [hl]
  rfl

lemma applyEdits_str_key {e : EditRequest} {k s : String} (img0 : PImage)
    (hk : k ∈ recognizedEditKeys) (hl : lookupEdit e k = some (.str s)) :
    ∃ m, applyEdits e img0 = .error m := by
  simp only [recognizedEditKeys, List.mem_cons, List.not_mem_nil, or_false] at hk
  rcases hk with rfl | rfl | rfl
  · exact ⟨"TypeError: brightness factor", applyEdits_brightness_str img0 hl⟩
  · unfold applyEdits
    cases hb : brightnessStep e img0.convert_RGB with
    | error m => exact ⟨m, rfl⟩
    | ok i1 =>
      refine ⟨"TypeError: contrast factor", ?_⟩
      simp only [Except.bind]
      rw [contrastStep_str i1 hl]
  · unfold applyEdits
    cases hb : brightnessStep e img0.convert_RGB with
    | error m => exact ⟨m, rfl⟩
    | ok i1 =>
      cases hc : contrastStep e i1 with
      | error m =>
        refine ⟨m, ?_⟩
        simp only [Except.bind]
        rw [hc]
      | ok i2 =>
        refine ⟨"TypeError: grayscale comparison", ?_⟩
        simp only [Except.bind]
        rw [hc]
        simp only [Except.bind]
        rw [grayscaleStep_str i2 hl]

lemma brightnessRecommendation_ne_empty (b : ℚ) : brightnessRecommendation b ≠ "" := by
  unfold brightnessRecommendation
  split
  · decide
  · split <;> decide

lemma contrastRecommendation_ne_empty (c : ℚ) : contrastRecommendation c ≠ "" := by
  unfold contrastRecommendation
  split
  · decide
  · split <;> decide

lemma vibrancyRecommendation_ne_empty (v : ℚ) : vibrancyRecommendation v ≠ "" := by
  unfold vibrancyRecommendation
  split
  · decide
  · split <;> decide

lemma analysisRecommendations_eq (b c v : ℚ) :
    analysisRecommendations b c v =
      [brightnessRecommendation b, contrastRecommendation c, vibrancyRecommendation v] := by
  unfold analysisRecommendations
  simp only []
  rw [if_pos (brightnessRecommendation_ne_empty b), if_pos (contrastRecommendation_ne_empty c),
    if_pos (vibrancyRecommendation_ne_empty v)]
  rfl

/-! ### Claim theorems -/

/-- C1: the edit endpoint is deterministic (it is a pure function of the
source, the edit mapping and the observed timestamp) and insensitive to
the caller's key ordering: two requests whose edit mappings are
reorderings of the same key/value set (keys unique, as in a JSON object)
produce identical outcomes and identical stores — in particular the
derived artifact has byte-identical decoded pixel content — because the
pipeline applies brightness, contrast, grayscale in a fixed internal
order. -/
theorem edit_pipeline_key_order_invariant (decode : Bytes → Option PImage)
    (encode : PImage → Bytes) (store : Store) (filename? : Option String)
    (e1 e2 : EditRequest) (timestamp : ℕ) (hperm : e1.Perm e2)
    (hnd : (e1.map Prod.fst).Nodup) :
    applyAllEdits decode encode store filename? e1 timestamp =
      applyAllEdits decode encode store filename? e2 timestamp :=
  applyAllEdits_congr_edits decode encode store filename? timestamp
    (applyEdits_congr fun k _ => lookupEdit_eq_of_perm hperm hnd k)

/-- Witness for C1: brightness-then-contrast and contrast-then-brightness
input orderings give the same result on a concrete store. -/
theorem edit_pipeline_key_order_invariant_witness :
    applyAllEdits sampleDecode sampleEncode sampleStore (some "good.png")
        [("brightness", EditVal.num (6 / 5)), ("contrast", EditVal.num (11 / 10))] 1000 =
      applyAllEdits sampleDecode sampleEncode sampleStore (some "good.png")
        [("contrast", EditVal.num (11 / 10)), ("brightness", EditVal.num (6 / 5))] 1000 :=
  edit_pipeline_key_order_invariant sampleDecode sampleEncode sampleStore (some "good.png")
    _ _ 1000 (List.Perm.swap _ _ _) (by decide)

/-- C8: a request entry whose key is outside the recognized set
{brightness, contrast, grayscale} is ignored: adding (equivalently,
removing) such an entry changes neither the outcome nor the store, and in
particular never makes the operation fail. -/
theorem extra_edit_keys_ignored (decode : Bytes → Option PImage)
    (encode : PImage → Bytes) (store : Store) (filename? : Option String)
    (e : EditRequest) (timestamp : ℕ) (k : String) (v : EditVal)
    (hk : k ∉ recognizedEditKeys) :
    applyAllEdits decode encode store filename? ((k, v) :: e) timestamp =
      applyAllEdits decode encode store filename? e timestamp := by
  simp only [recognizedEditKeys, List.mem_cons, List.not_mem_nil, or_false,
    not_or] at hk
  obtain ⟨h1, h2, h3⟩ := hk
  refine applyAllEdits_congr_edits decode encode store filename? timestamp
    (applyEdits_congr ?_)
  intro key hkey
  simp only [recognizedEditKeys, List.mem_cons, List.not_mem_nil, or_false] at hkey
  rcases hkey with rfl | rfl | rfl
  · exact lookupEdit_cons_of_ne v e h1
  · exact lookupEdit_cons_of_ne v e h2
  · exact lookupEdit_cons_of_ne v e h3

/-- Witness for C8: adding an unrecognized key `rotate` changes nothing on
a concrete run. -/
theorem extra_edit_keys_ignored_witness :
    applyAllEdits sampleDecode sampleEncode sampleStore (some "good.png")
        [("rotate", EditVal.num 90), ("brightness", EditVal.num 2)] 1000 =
      applyAllEdits sampleDecode sampleEncode sampleStore (some "good.png")
        [("brightness", EditVal.num 2)] 1000 :=
  extra_edit_keys_ignored sampleDecode sampleEncode sampleStore (some "good.png")
    [("brightness", EditVal.num 2)] 1000 "rotate" (EditVal.num 90) (by decide)

/-- C5: the edit operation is all-or-nothing — whenever the outcome is not
the 200 success (missing filename, unresolvable source, undecodable bytes,
or an error while applying an edit), the store, and in particular the
derived pool, is exactly the store the call started from. -/
theorem edit_failure_leaves_store_unchanged (decode : Bytes → Option PImage)
    (encode : PImage → Bytes) (store : Store) (filename? : Option String)
    (edits : EditRequest) (timestamp : ℕ)
    (h : (applyAllEdits decode encode store filename? edits timestamp).1.isOk = false) :
    (applyAllEdits decode encode store filename? edits timestamp).2 = store := by
  unfold applyAllEdits at h ⊢
  cases filename? with
  | none => rfl
  | some f =>
    dsimp only [] at h ⊢
    by_cases hf : f = ""
    · rw [if_pos hf]
    · rw [if_neg hf] at h ⊢
      cases hg : getImagePath store f with
      | none => rfl
      | some bytes =>
        rw [hg] at h
        dsimp only [] at h ⊢
        cases hd : decode bytes with
        | none => rfl
        | some img0 =>
          rw [hd] at h
          dsimp only [] at h ⊢
          cases ha : applyEdits edits img0 with
          | error m => rfl
          | ok img =>
            rw [ha] at h
            simp [EditOutcome.isOk] at h

/-- Witness for C5: a failing call (unresolvable source name) leaves the
concrete store unchanged. -/
theorem edit_failure_leaves_store_unchanged_witness :
    (applyAllEdits sampleDecode sampleEncode sampleStore (some "nope.png") [] 1000).2 =
      sampleStore :=
  edit_failure_leaves_store_unchanged sampleDecode sampleEncode sampleStore
    (some "nope.png") [] 1000 (by decide)

/-- C10: a request with an absent or empty filename is rejected with the
distinct 'Filename not provided' (400) outcome before any resolution,
decoding or editing — for every store and every decoder the result is the
same and the store is untouched — and this outcome differs from the
not-found (404) outcome used for a non-empty filename that resolves to no
file. -/
theorem missing_filename_rejected (decode : Bytes → Option PImage)
    (encode : PImage → Bytes) (store : Store) (edits : EditRequest)
    (timestamp : ℕ) (filename? : Option String)
    (h : filename? = none ∨ filename? = some "") :
    applyAllEdits decode encode store filename? edits timestamp =
      (.filenameNotProvided, store) ∧
    EditOutcome.filenameNotProvided ≠ EditOutcome.fileNotFound ∧
    EditOutcome.filenameNotProvided.status = 400 ∧
    EditOutcome.fileNotFound.status = 404 := by
  refine ⟨?_, by decide, rfl, rfl⟩
  rcases h with rfl | rfl
  · rfl
  · unfold applyAllEdits
    dsimp only []
    rw [if_pos rfl]

/-- Witness for C10: a concrete call with no filename field. -/
theorem missing_filename_rejected_witness :
    applyAllEdits sampleDecode sampleEncode sampleStore none [] 1000 =
      (.filenameNotProvided, sampleStore) ∧
    EditOutcome.filenameNotProvided ≠ EditOutcome.fileNotFound ∧
    EditOutcome.filenameNotProvided.status = 400 ∧
    EditOutcome.fileNotFound.status = 404 :=
  missing_filename_rejected sampleDecode sampleEncode sampleStore [] 1000 none
    (Or.inl rfl)

/-- C2: all three classifiers use strict inequalities, so each exact
boundary value falls in the middle band: grayscale mean exactly 70 and
exactly 180 classify as balanced brightness, grayscale standard deviation
exactly 30 and 80 as balanced contrast, saturation standard deviation
exactly 50 and 100 as balanced vibrancy. -/
theorem classifier_boundaries_balanced :
    brightnessRecommendation 70 = "Brightness seems balanced." ∧
    brightnessRecommendation 180 = "Brightness seems balanced." ∧
    contrastRecommendation 30 = "Contrast seems balanced." ∧
    contrastRecommendation 80 = "Contrast seems balanced." ∧
    vibrancyRecommendation 50 = "Color vibrancy seems balanced." ∧
    vibrancyRecommendation 100 = "Color vibrancy seems balanced." := by decide

/-- C7: whenever analysis succeeds, the result echoes the source filename
and carries exactly 3 recommendation strings, in the fixed order
brightness, contrast, vibrancy, each of them non-empty (every classifier
band produces a message, so a shorter list is impossible). -/
theorem analyze_result_shape (decode : Bytes → Option PImage) (std : List ℚ → ℚ)
    (saturationValues : PImage → List ℚ) (store : Store) (filename fn : String)
    (recs : List String)
    (h : analyzeImage decode std saturationValues store filename = .ok fn recs) :
    fn = filename ∧ recs.length = 3 ∧ (∀ r ∈ recs, r ≠ "") ∧
    ∃ b c v, recs = [brightnessRecommendation b, contrastRecommendation c,
      vibrancyRecommendation v] := by
  unfold analyzeImage at h
  cases hlp : lookupPool store.uploads filename with
  | none => rw [hlp] at h; simp at h
  | some bytes =>
    rw [hlp] at h
    dsimp only [] at h
    cases hd : decode bytes with
    | none => rw [hd] at h; simp at h
    | some img =>
      rw [hd] at h
      dsimp only [] at h
      simp only [AnalyzeOutcome.ok.injEq] at h
      obtain ⟨hfn, hrecs⟩ := h
      refine ⟨hfn.symm, ?_, ?_, ?_⟩
      · rw [← hrecs, analysisRecommendations_eq]
        rfl
      · intro r hr
        rw [← hrecs, analysisRecommendations_eq] at hr
        simp only [List.mem_cons, List.not_mem_nil, or_false] at hr
        rcases hr with rfl | rfl | rfl
        · exact brightnessRecommendation_ne_empty _
        · exact contrastRecommendation_ne_empty _
        · exact vibrancyRecommendation_ne_empty _
      · exact ⟨_, _, _, by rw [← hrecs, analysisRecommendations_eq]⟩

/-- Witness for C7 on a concrete store and image. -/
theorem analyze_result_shape_witness :
    "good.png" = "good.png" ∧
    (["Image might be underexposed. Consider increasing brightness.",
      "Image might lack contrast. Consider increasing contrast.",
      "Image might lack color vibrancy. Consider increasing saturation."] :
        List String).length = 3 ∧
    (∀ r ∈ (["Image might be underexposed. Consider increasing brightness.",
      "Image might lack contrast. Consider increasing contrast.",
      "Image might lack color vibrancy. Consider increasing saturation."] :
        List String), r ≠ "") ∧
    ∃ b c v,
      (["Image might be underexposed. Consider increasing brightness.",
        "Image might lack contrast. Consider increasing contrast.",
        "Image might lack color vibrancy. Consider increasing saturation."] :
          List String) =
        [brightnessRecommendation b, contrastRecommendation c,
          vibrancyRecommendation v] :=
  analyze_result_shape (fun _ => some (PImage.rgbImg [])) (fun _ => 0) (fun _ => [])
    sampleStore "good.png" "good.png" _ (by
      simp [analyzeImage, sampleStore, lookupPool, PImage.convert_L,
        PImage.grayValues, analysisRecommendations, brightnessRecommendation,
        contrastRecommendation, vibrancyRecommendation, listMean])

/-- C3 counterexample: a filename that exists only in the derived pool is
resolvable by the edit pipeline's shared rule (`get_image_path`), yet
analysis reports the not-found error — analysis does not use the shared
derived-first resolution. -/
theorem analyze_derived_only_counterexample :
    getImagePath derivedOnlyStore "x.png" = some [7] ∧
    analyzeImage sampleDecode (fun _ => 0) (fun _ => []) derivedOnlyStore "x.png" =
      .fileNotFound := by decide

/-- C3 amended: the analysis endpoint resolves its source in the originals
(uploads) pool only: its result is entirely independent of the derived
pool, and a filename absent from the originals pool yields the not-found
outcome even when the derived pool holds it. -/
theorem analyze_reads_uploads_pool_only (decode : Bytes → Option PImage)
    (std : List ℚ → ℚ) (saturationValues : PImage → List ℚ) (s1 s2 : Store)
    (filename : String) (h : s1.uploads = s2.uploads) :
    analyzeImage decode std saturationValues s1 filename =
      analyzeImage decode std saturationValues s2 filename ∧
    (lookupPool s1.uploads filename = none →
      analyzeImage decode std saturationValues s1 filename = .fileNotFound) := by
  constructor
  · unfold analyzeImage
    rw [h]
  · intro hn
    unfold analyzeImage
    rw [hn]

/-- Witness for the amended C3 at a concrete store. -/
theorem analyze_reads_uploads_pool_only_witness :
    (analyzeImage sampleDecode (fun _ => 0) (fun _ => []) derivedOnlyStore "x.png" =
      analyzeImage sampleDecode (fun _ => 0) (fun _ => []) (Store.mk [] []) "x.png") ∧
    (lookupPool derivedOnlyStore.uploads "x.png" = none →
      analyzeImage sampleDecode (fun _ => 0) (fun _ => []) derivedOnlyStore "x.png" =
        .fileNotFound) :=
  analyze_reads_uploads_pool_only sampleDecode (fun _ => 0) (fun _ => [])
    derivedOnlyStore (Store.mk [] []) "x.png" rfl

/-- C4 counterexample: two successive edit calls on the same source that
observe the same millisecond timestamp (`int(time.time() * 1000)` has
millisecond granularity, so rapid successive calls do observe equal
values) generate the *same* derived filename, and the second persist
shadows — silently overwrites — the first artifact in the derived pool:
after the two calls the pool's listing carries the one name twice. -/
theorem derived_name_collision_counterexample :
    (applyAllEdits sampleDecode sampleEncode sampleStore (some "good.png") [] 1000).1 =
      .ok "good_edited_1000.png" ∧
    (applyAllEdits sampleDecode sampleEncode
        (applyAllEdits sampleDecode sampleEncode sampleStore (some "good.png") [] 1000).2
        (some "good.png") [] 1000).1 =
      .ok "good_edited_1000.png" ∧
    ((applyAllEdits sampleDecode sampleEncode
        (applyAllEdits sampleDecode sampleEncode sampleStore (some "good.png") [] 1000).2
        (some "good.png") [] 1000).2.edited.map Prod.fst) =
      ["good_edited_1000.png", "good_edited_1000.png"] := by decide

/-- C4 amended: the disambiguator is the observed millisecond timestamp,
which is non-decreasing but not strictly increasing across calls; two edit
calls on the same source receive distinct derived filenames exactly when
they observe distinct timestamps — calls that fall into the same
millisecond collide (and the persist then overwrites). -/
theorem derived_filenames_unique_iff_timestamps_differ (filename suffix : String)
    (ts1 ts2 : ℕ) :
    getNewEditedFilename filename suffix ts1 = getNewEditedFilename filename suffix ts2 ↔
      ts1 = ts2 := by
  constructor
  · intro h
    unfold getNewEditedFilename at h
    dsimp only [] at h
    have hd := congrArg String.data h
    simp only [String.data_append, List.append_assoc] at hd
    have h1 := List.append_cancel_left hd
    have h2 := List.append_cancel_left h1
    have h3 := List.append_cancel_left h2
    have h4 := List.append_cancel_left h3
    have h5 := List.append_cancel_right h4
    exact natStr_injective (String.ext h5)
  · intro h
    rw [h]

/-- Witness for the amended C4: distinct timestamps give distinct names on
a concrete input. -/
theorem derived_filenames_unique_iff_timestamps_differ_witness :
    getNewEditedFilename "photo.png" "edited" 1000 ≠
      getNewEditedFilename "photo.png" "edited" 1001 :=
  fun h =>
    absurd ((derived_filenames_unique_iff_timestamps_differ "photo.png" "edited"
      1000 1001).mp h) (by decide)

/-- C6 counterexample: the value `-1` is truthy in Python, yet the code's
test is `edits['grayscale'] > 0`, so `grayscale: -1` performs no
conversion: the derived image keeps a pixel whose channels differ. -/
theorem grayscale_truthy_counterexample :
    EditVal.truthy (EditVal.num (-1)) = true ∧
    applyEdits [("grayscale", EditVal.num (-1))] (PImage.rgbImg [(255, 0, 0)]) =
      .ok (PImage.rgbImg [(255, 0, 0)]) ∧
    (PImage.rgbImg [(255, 0, 0)]).allChannelsEqual = false := by decide

/-- C6 amended: whenever the grayscale key is present with a value
comparing greater than zero under Python's ordering (rather than merely
truthy), every pixel of the successful result has its three channels
pairwise equal; and for every edit request whatsoever, a successful result
has exactly 3 channels. -/
theorem grayscale_gtzero_and_channel_invariant :
    (∀ (edits : EditRequest) (img0 img : PImage) (v : EditVal),
        lookupEdit edits "grayscale" = some v → v.pyGtZero = some true →
        applyEdits edits img0 = .ok img → img.allChannelsEqual = true) ∧
    (∀ (edits : EditRequest) (img0 img : PImage),
        applyEdits edits img0 = .ok img → img.channels = 3) :=
  ⟨fun _ _ _ _ hl hgt h => applyEdits_grayscale_allEq hl hgt h,
   fun _ _ _ h => applyEdits_ok_channels h⟩

/-- Witness for the amended C6 on a concrete grayscale request. -/
theorem grayscale_gtzero_and_channel_invariant_witness :
    (PImage.rgbImg [(4, 4, 4)]).allChannelsEqual = true ∧
    (PImage.rgbImg [(4, 4, 4)]).channels = 3 :=
  ⟨grayscale_gtzero_and_channel_invariant.1 [("grayscale", EditVal.num 1)]
      (PImage.rgbImg [(4, 4, 4)]) _ (EditVal.num 1) (by decide) (by decide)
      (by
        simp [applyEdits, brightnessStep, contrastStep, grayscaleStep, lookupEdit,
          PImage.convert_RGB, PImage.convert_L, EditVal.pyGtZero, Except.bind]
        norm_num [luminance]),
   grayscale_gtzero_and_channel_invariant.2 [("grayscale", EditVal.num 1)]
      (PImage.rgbImg [(4, 4, 4)]) _ (by
        simp [applyEdits, brightnessStep, contrastStep, grayscaleStep, lookupEdit,
          PImage.convert_RGB, PImage.convert_L, EditVal.pyGtZero, Except.bind]
        norm_num [luminance])⟩

/-- C9 counterexample: a decode failure (corrupt bytes) and an invalid
edit parameter (string-typed brightness) both surface as the same generic
exception outcome with the same 500 status — they are distinguishable only
by their stringified message text, not programmatically by kind. -/
theorem error_kind_collapse_counterexample :
    (applyAllEdits sampleDecode sampleEncode sampleStore (some "bad.png") [] 1000).1 =
      .exn "cannot identify image file" ∧
    (applyAllEdits sampleDecode sampleEncode sampleStore (some "good.png")
        [("brightness", EditVal.str "big")] 1000).1 =
      .exn "TypeError: brightness factor" ∧
    (applyAllEdits sampleDecode sampleEncode sampleStore (some "bad.png") [] 1000).1.kind =
      (applyAllEdits sampleDecode sampleEncode sampleStore (some "good.png")
        [("brightness", EditVal.str "big")] 1000).1.kind ∧
    (applyAllEdits sampleDecode sampleEncode sampleStore (some "bad.png") [] 1000).1.status =
      (applyAllEdits sampleDecode sampleEncode sampleStore (some "good.png")
        [("brightness", EditVal.str "big")] 1000).1.status := by decide

/-- C9 amended: a missing source is distinguishable by kind (the 404
not-found outcome) and no failure is downgraded to a success — an
unresolvable name, undecodable bytes, and a wrong-typed (string-valued)
parameter under any of the three recognized keys each abort with the store
unchanged — but decode failures and invalid parameters share the one
generic exception kind (500) and are not mutually distinguishable except
by message text. -/
theorem edit_error_taxonomy (decode : Bytes → Option PImage)
    (encode : PImage → Bytes) (store : Store) (filename : String)
    (edits : EditRequest) (timestamp : ℕ) (hne : filename ≠ "") :
    (getImagePath store filename = none →
      applyAllEdits decode encode store (some filename) edits timestamp =
        (.fileNotFound, store)) ∧
    (∀ bytes, getImagePath store filename = some bytes → decode bytes = none →
      applyAllEdits decode encode store (some filename) edits timestamp =
        (.exn "cannot identify image file", store)) ∧
    (∀ bytes img0 s, getImagePath store filename = some bytes →
      decode bytes = some img0 →
      lookupEdit edits "brightness" = some (EditVal.str s) →
      applyAllEdits decode encode store (some filename) edits timestamp =
        (.exn "TypeError: brightness factor", store)) ∧
    (∀ bytes img0 k s, getImagePath store filename = some bytes →
      decode bytes = some img0 → k ∈ recognizedEditKeys →
      lookupEdit edits k = some (EditVal.str s) →
      ∃ m, applyAllEdits decode encode store (some filename) edits timestamp =
        (.exn m, store)) ∧
    (∀ m : String, EditOutcome.fileNotFound.kind ≠ (EditOutcome.exn m).kind) ∧
    (∀ m m' : String, (EditOutcome.exn m).kind = (EditOutcome.exn m').kind) := by
  refine ⟨?_, ?_, ?_, ?_, fun m => by simp [EditOutcome.kind], fun m m' => rfl⟩
  · intro hg
    unfold applyAllEdits
    dsimp only []
    rw [if_neg hne, hg]
  · intro bytes hg hd
    unfold applyAllEdits
    dsimp only []
    rw [if_neg hne, hg]
    dsimp only []
    rw [hd]
  · intro bytes img0 s hg hd hl
    unfold applyAllEdits
    dsimp only []
    rw [if_neg hne, hg]
    dsimp only []
    rw [hd]
    dsimp only []
    rw [applyEdits_brightness_str img0 hl]
  · intro bytes img0 k s hg hd hk hl
    obtain ⟨m, hm⟩ := applyEdits_str_key img0 hk hl
    refine ⟨m, ?_⟩
    unfold applyAllEdits
    dsimp only []
    rw [if_neg hne, hg]
    dsimp only []
    rw [hd]
    dsimp only []
    rw [hm]

/-- Witness for the amended C9: the not-found branch, and a string-typed
grayscale parameter aborting with the store unchanged, at a concrete
store. -/
theorem edit_error_taxonomy_witness :
    applyAllEdits sampleDecode sampleEncode sampleStore (some "nope.png") [] 1000 =
      (.fileNotFound, sampleStore) ∧
    (∃ m, applyAllEdits sampleDecode sampleEncode sampleStore (some "good.png")
        [("grayscale", EditVal.str "yes")] 1000 = (.exn m, sampleStore)) :=
  ⟨(edit_error_taxonomy sampleDecode sampleEncode sampleStore "nope.png" [] 1000
      (by decide)).1 (by decide),
   (edit_error_taxonomy sampleDecode sampleEncode sampleStore "good.png"
      [("grayscale", EditVal.str "yes")] 1000 (by decide)).2.2.2.1 [1]
      (PImage.rgbImg [(1, 20, 30)]) "grayscale" "yes" (by decide) (by decide)
      (by decide) (by decide)⟩
